import Mathlib

set_option maxRecDepth 100000

/-
  Verification of the easy-fs orchestrator (src/easy-fs/src/efs.rs) and the
  task state machine (src/os/src/task/task.rs) of LearningOS/2024a-rcore-Babytiann.

  The block device and block cache are shallowly embedded as a pure disk state
  (a function from block index and byte index to byte value); every cache
  mediated modify becomes a functional disk update.  Rust u32/usize arithmetic
  is embedded in Nat; where the Rust code would panic (unwrap on None,
  assertion failure, subtraction underflow) the embedding returns an
  Except.error carrying the panic message, so a crash and a normal return are
  distinguishable in statements.
-/

namespace EasyFS

/-- Modelled from the spec: BLOCK_SZ (crate constant, not under src/).  The
spec fixes one bitmap block to cover 4096 allocatable units and a bitmap
block is one device block of bits, so a block is 4096 bits = 512 bytes. -/
def BLOCK_SZ : Nat := 512

/-- Bits per bitmap block: BLOCK_SZ bytes of 8 bits each. -/
def BLOCK_BITS : Nat := BLOCK_SZ * 8

/-- Modelled from the spec: size in bytes of the fixed-size on-disk inode
record (DiskInode, defined in layout.rs which is not under src/).  The spec
only requires a fixed size; 128 is the standard easy-fs record size, and it
divides BLOCK_SZ as required by the contiguous packing of get_disk_inode_pos. -/
def DISK_INODE_SZ : Nat := 128

/-- Modelled from the spec: the SuperBlock magic constant (layout.rs, not
under src/).  Its concrete value is irrelevant to every claim; only that
SuperBlock.make stores it and is_valid compares against it matters. -/
def EFS_MAGIC : Nat := 0x3b800001

/-- A device block: byte index to byte value. -/
abbrev Block := Nat → Nat

/-- The device state: block index to block contents. -/
abbrev Disk := Nat → Block

/-- The all-zero block. -/
def zeroBlock : Block := fun _ => 0

/-- The all-zero disk. -/
def zeroDisk : Disk := fun _ => zeroBlock

/-- Bit k of a block, little-endian within each byte: bit (k mod 8) of
byte (k div 8). -/
def blockBit (blk : Block) (k : Nat) : Nat := blk (k / 8) / 2 ^ (k % 8) % 2

/-- Set bit r of a byte (the Rust or-assignment, exact for bytes). -/
def setBitByte (x r : Nat) : Nat := if x / 2 ^ r % 2 = 1 then x else x + 2 ^ r

/-- Clear bit r of a byte (the Rust and-not assignment, exact for bytes). -/
def clearBitByte (x r : Nat) : Nat := if x / 2 ^ r % 2 = 1 then x - 2 ^ r else x

/-- Disk after setting bit k of block blockId. -/
def setBit (d : Disk) (blockId k : Nat) : Disk :=
  fun b => if b = blockId then
    (fun j => if j = k / 8 then setBitByte (d b j) (k % 8) else d b j)
  else d b

/-- Disk after clearing bit k of block blockId. -/
def clearBit (d : Disk) (blockId k : Nat) : Disk :=
  fun b => if b = blockId then
    (fun j => if j = k / 8 then clearBitByte (d b j) (k % 8) else d b j)
  else d b

/-- Disk after overwriting block blockId with zero bytes. -/
def zeroBlockAt (d : Disk) (blockId : Nat) : Disk :=
  fun b => if b = blockId then zeroBlock else d b

/-- A bitmap allocator over the blocks [start_block_id, start_block_id + blocks).
Mirrors struct Bitmap of bitmap.rs (not under src/; fields per the spec). -/
structure Bitmap where
  start_block_id : Nat
  blocks : Nat
deriving DecidableEq

/-- Bitmap::new. -/
def Bitmap.new (start_block_id blocks : Nat) : Bitmap := ⟨start_block_id, blocks⟩

/-- Bitmap::maximum: capacity in bits = blocks_in_region times bits_per_block. -/
def Bitmap.maximum (bm : Bitmap) : Nat := bm.blocks * BLOCK_BITS

/-- The allocation bit for unit k of the region: bit (k mod BLOCK_BITS) of
bitmap block (start_block_id + k div BLOCK_BITS). -/
def Bitmap.bitAt (bm : Bitmap) (d : Disk) (k : Nat) : Nat :=
  blockBit (d (bm.start_block_id + k / BLOCK_BITS)) (k % BLOCK_BITS)

/-- Modelled from the spec: the scan inside Bitmap::alloc (bitmap.rs, not
under src/): bitmap blocks in ascending order, bits in ascending order,
returning the index of the first zero bit, none if the region is exhausted. -/
def Bitmap.findFree (bm : Bitmap) (d : Disk) : Option Nat :=
  (List.range (Bitmap.maximum bm)).find? (fun k => Bitmap.bitAt bm d k == 0)

/-- Modelled from the spec: Bitmap::alloc sets the first free bit via the
block cache and returns its index, or returns none when no free bit exists. -/
def Bitmap.alloc (bm : Bitmap) (d : Disk) : Option (Nat × Disk) :=
  match Bitmap.findFree bm d with
  | none => none
  | some k =>
    some (k, setBit d (bm.start_block_id + k / BLOCK_BITS) (k % BLOCK_BITS))

/-- Panic message used by the embedding where the Rust code would panic on a
failed assertion inside Bitmap::dealloc (double free of a bitmap bit). -/
def doubleFreeMsg : String := "assertion failed: bitmap bit already clear"

/-- Modelled from the spec: Bitmap::dealloc clears the bit at the given
bitmap-relative index; clearing an already-clear bit fails loudly
(assertion), embedded as an Except.error. -/
def Bitmap.dealloc (bm : Bitmap) (d : Disk) (idx : Nat) : Except String Disk :=
  if Bitmap.bitAt bm d idx = 1 then
    Except.ok (clearBit d (bm.start_block_id + idx / BLOCK_BITS) (idx % BLOCK_BITS))
  else Except.error doubleFreeMsg

/-- The SuperBlock record, block 0 of the device.  Mirrors struct SuperBlock
of layout.rs (not under src/; the six u32 fields are given by the spec,
section 6: persisted layout). -/
structure SuperBlock where
  magic : Nat
  total_blocks : Nat
  inode_bitmap_blocks : Nat
  inode_area_blocks : Nat
  data_bitmap_blocks : Nat
  data_area_blocks : Nat
deriving DecidableEq

/-- Modelled from the spec: SuperBlock::initialize (layout.rs, not under
src/) fills the record with the magic constant and the five counts. -/
def SuperBlock.make (total_blocks inode_bitmap_blocks inode_area_blocks
    data_bitmap_blocks data_area_blocks : Nat) : SuperBlock :=
  ⟨EFS_MAGIC, total_blocks, inode_bitmap_blocks, inode_area_blocks,
   data_bitmap_blocks, data_area_blocks⟩

/-- Modelled from the spec: SuperBlock::is_valid compares the stored magic
with the magic constant. -/
def SuperBlock.is_valid (sb : SuperBlock) : Bool := sb.magic == EFS_MAGIC

/-- Field i of the SuperBlock record in its on-disk order. -/
def sbField (sb : SuperBlock) : Nat → Nat
  | 0 => sb.magic
  | 1 => sb.total_blocks
  | 2 => sb.inode_bitmap_blocks
  | 3 => sb.inode_area_blocks
  | 4 => sb.data_bitmap_blocks
  | _ => sb.data_area_blocks

/-- Byte j of the little-endian 4-byte encoding of a u32 value. -/
def u32Byte (x j : Nat) : Nat := x / 2 ^ (8 * j) % 256

/-- Little-endian u32 read from four consecutive bytes of a block. -/
def readU32 (blk : Block) (off : Nat) : Nat :=
  blk off + 256 * blk (off + 1) + 65536 * blk (off + 2) + 16777216 * blk (off + 3)

/-- Disk after the cache-mediated modify that writes the 24-byte SuperBlock
record at offset 0 of block 0 (the remaining bytes of block 0 are untouched). -/
def writeSuperBlock (d : Disk) (sb : SuperBlock) : Disk :=
  fun b => if b = 0 then
    (fun j => if j < 24 then u32Byte (sbField sb (j / 4)) (j % 4) else d 0 j)
  else d b

/-- The SuperBlock record as read back from block 0 of the disk. -/
def SuperBlock.read (d : Disk) : SuperBlock :=
  ⟨readU32 (d 0) 0, readU32 (d 0) 4, readU32 (d 0) 8,
   readU32 (d 0) 12, readU32 (d 0) 16, readU32 (d 0) 20⟩

/-- The DiskInode type tag (layout.rs, not under src/). -/
inductive DiskInodeType where
  | File : DiskInodeType
  | Directory : DiskInodeType
deriving DecidableEq

/-- Numeric tag of a DiskInodeType (File 0, Directory 1). -/
def DiskInodeType.tag : DiskInodeType → Nat
  | DiskInodeType.File => 0
  | DiskInodeType.Directory => 1

/-- Modelled from the spec: the byte image of a DiskInode right after
DiskInode::initialize(ty) (layout.rs, not under src/): zero size and zero
block pointers, with the nonzero type tag stored in the final byte of the
fixed-size record. -/
def diskInodeInitBytes (ty : DiskInodeType) (j : Nat) : Nat :=
  if j = DISK_INODE_SZ - 1 then DiskInodeType.tag ty else 0

/-- Disk after the cache-mediated modify that writes a freshly initialized
DiskInode record at byte offset off of block blk. -/
def writeDiskInodeAt (d : Disk) (blk off : Nat) (ty : DiskInodeType) : Disk :=
  fun b => if b = blk then
    (fun j => if off ≤ j ∧ j < off + DISK_INODE_SZ then diskInodeInitBytes ty (j - off) else d b j)
  else d b

/-- struct EasyFileSystem (efs.rs): the two bitmaps and the two region start
blocks.  The device is not a field here; it is the Disk argument threaded
through every operation. -/
structure EasyFileSystem where
  inode_bitmap : Bitmap
  data_bitmap : Bitmap
  inode_area_start_block : Nat
  data_area_start_block : Nat
deriving DecidableEq

/-- The region-size arithmetic of EasyFileSystem::create, lines 30-55 of
efs.rs, as one record of the computed counts and start blocks. -/
structure Layout where
  inode_area_blocks : Nat
  inode_total_blocks : Nat
  data_total_blocks : Nat
  data_bitmap_blocks : Nat
  data_area_blocks : Nat
  inode_area_start_block : Nat
  data_area_start_block : Nat
deriving DecidableEq

/-- inode_area_blocks as computed by create:
(inode_num * size_of DiskInode + BLOCK_SZ - 1) / BLOCK_SZ where inode_num is
the maximum of Bitmap::new(1, inode_bitmap_blocks). -/
def inodeAreaBlocks (inode_bitmap_blocks : Nat) : Nat :=
  (Bitmap.maximum (Bitmap.new 1 inode_bitmap_blocks) * DISK_INODE_SZ + BLOCK_SZ - 1) / BLOCK_SZ

/-- The layout computed by EasyFileSystem::create from its two inputs
(efs.rs lines 30-55, translated line by line). -/
def layoutOf (total_blocks inode_bitmap_blocks : Nat) : Layout :=
  let inode_area_blocks := inodeAreaBlocks inode_bitmap_blocks
  let inode_total_blocks := inode_bitmap_blocks + inode_area_blocks
  let data_total_blocks := total_blocks - 1 - inode_total_blocks
  let data_bitmap_blocks := (data_total_blocks + 4096) / 4097
  let data_area_blocks := data_total_blocks - data_bitmap_blocks
  ⟨inode_area_blocks, inode_total_blocks, data_total_blocks, data_bitmap_blocks,
   data_area_blocks, 1 + inode_bitmap_blocks,
   1 + inode_total_blocks + data_bitmap_blocks⟩

/-- The EasyFileSystem value built by create (efs.rs lines 50-56). -/
def createEfs (total_blocks inode_bitmap_blocks : Nat) : EasyFileSystem :=
  ⟨Bitmap.new 1 inode_bitmap_blocks,
   Bitmap.new (1 + inode_bitmap_blocks + (layoutOf total_blocks inode_bitmap_blocks).inode_area_blocks)
     (layoutOf total_blocks inode_bitmap_blocks).data_bitmap_blocks,
   (layoutOf total_blocks inode_bitmap_blocks).inode_area_start_block,
   (layoutOf total_blocks inode_bitmap_blocks).data_area_start_block⟩

/-- The disk after the clear-all-blocks loop of create (efs.rs lines 58-68):
every block below total_blocks is zeroed, the rest keep their prior bytes. -/
def createZeroed (d0 : Disk) (total_blocks : Nat) : Disk :=
  fun b => if b < total_blocks then zeroBlock else d0 b

/-- The SuperBlock written by create (efs.rs lines 70-81). -/
def createSB (total_blocks inode_bitmap_blocks : Nat) : SuperBlock :=
  SuperBlock.make total_blocks inode_bitmap_blocks
    (layoutOf total_blocks inode_bitmap_blocks).inode_area_blocks
    (layoutOf total_blocks inode_bitmap_blocks).data_bitmap_blocks
    (layoutOf total_blocks inode_bitmap_blocks).data_area_blocks

/-- The disk after zeroing and the SuperBlock write, the state in which
create performs its first inode allocation. -/
def createDisk2 (d0 : Disk) (total_blocks inode_bitmap_blocks : Nat) : Disk :=
  writeSuperBlock (createZeroed d0 total_blocks) (createSB total_blocks inode_bitmap_blocks)

/-- Panic message of Option::unwrap on None (efs.rs lines 146 and 151 unwrap
the bitmap allocation result). -/
def panicUnwrapMsg : String := "panicked: called Option::unwrap on a None value"

/-- Panic message of u32 subtraction underflow. -/
def subOverflowMsg : String := "panicked: attempt to subtract with overflow"

/-- Panic message of the root-inode assertion in create (efs.rs line 86). -/
def assertRootMsg : String := "assertion failed: efs.alloc_inode() == 0"

/-- Panic message of the magic assertion in open (efs.rs line 106). -/
def loadErrMsg : String := "Error loading EFS!"

namespace EasyFileSystem

/-- EasyFileSystem::get_disk_inode_pos (efs.rs lines 131-139): pure mapping
of an inode index to (block id, in-block byte offset). -/
def get_disk_inode_pos (efs : EasyFileSystem) (inode_id : Nat) : Nat × Nat :=
  let inode_size := DISK_INODE_SZ
  let inodes_per_block := BLOCK_SZ / inode_size
  (efs.inode_area_start_block + inode_id / inodes_per_block,
   inode_id % inodes_per_block * inode_size)

/-- EasyFileSystem::get_data_block_id (efs.rs lines 141-143). -/
def get_data_block_id (efs : EasyFileSystem) (data_block_id : Nat) : Nat :=
  efs.data_area_start_block + data_block_id

/-- EasyFileSystem::alloc_inode (efs.rs lines 145-147):
self.inode_bitmap.alloc(..).unwrap() — the unwrap turns bitmap exhaustion
(alloc returning none) into a panic, embedded as Except.error. -/
def alloc_inode (efs : EasyFileSystem) (d : Disk) : Except String (Nat × Disk) :=
  match Bitmap.alloc efs.inode_bitmap d with
  | some (k, d2) => Except.ok (k, d2)
  | none => Except.error panicUnwrapMsg

/-- EasyFileSystem::alloc_data (efs.rs lines 150-152):
self.data_bitmap.alloc(..).unwrap() + self.data_area_start_block. -/
def alloc_data (efs : EasyFileSystem) (d : Disk) : Except String (Nat × Disk) :=
  match Bitmap.alloc efs.data_bitmap d with
  | some (k, d2) => Except.ok (k + efs.data_area_start_block, d2)
  | none => Except.error panicUnwrapMsg

/-- EasyFileSystem::dealloc_data (efs.rs lines 154-166): zero the block via
the cache, then clear data-bitmap bit (block_id - data_area_start_block).
The u32 subtraction underflows (panics) when block_id is below the data
area start. -/
def dealloc_data (efs : EasyFileSystem) (d : Disk) (block_id : Nat) : Except String Disk :=
  let d1 := zeroBlockAt d block_id
  if block_id < efs.data_area_start_block then Except.error subOverflowMsg
  else Bitmap.dealloc efs.data_bitmap d1 (block_id - efs.data_area_start_block)

/-- EasyFileSystem::create (efs.rs lines 24-99): compute the layout, zero
every block, write the SuperBlock, allocate inode 0 (asserted) and
initialize it as a directory.  Rust panics are embedded as Except.error. -/
def create (d0 : Disk) (total_blocks inode_bitmap_blocks : Nat) :
    Except String (EasyFileSystem × Disk) :=
  if total_blocks < 1 + (layoutOf total_blocks inode_bitmap_blocks).inode_total_blocks then
    Except.error subOverflowMsg
  else
    let efs := createEfs total_blocks inode_bitmap_blocks
    let d2 := createDisk2 d0 total_blocks inode_bitmap_blocks
    match alloc_inode efs d2 with
    | Except.error e => Except.error e
    | Except.ok (i, d3) =>
      if i = 0 then
        let pos := get_disk_inode_pos efs 0
        Except.ok (efs, writeDiskInodeAt d3 pos.1 pos.2 DiskInodeType.Directory)
      else Except.error assertRootMsg

/-- The construction step of EasyFileSystem::open from a decoded SuperBlock
(efs.rs lines 105-120): assert the magic, then rebuild every boundary from
the stored counts. -/
def openSB (sb : SuperBlock) : Except String EasyFileSystem :=
  if SuperBlock.is_valid sb then
    let inode_total_blocks := sb.inode_bitmap_blocks + sb.inode_area_blocks
    Except.ok
      ⟨Bitmap.new 1 sb.inode_bitmap_blocks,
       Bitmap.new (1 + inode_total_blocks) sb.data_bitmap_blocks,
       1 + sb.inode_bitmap_blocks,
       1 + inode_total_blocks + sb.data_bitmap_blocks⟩
  else Except.error loadErrMsg

/-- EasyFileSystem::open (efs.rs lines 101-121): read the SuperBlock from
block 0 and rebuild the filesystem from it alone. -/
def openFs (d : Disk) : Except String EasyFileSystem :=
  openSB (SuperBlock.read d)

end EasyFileSystem

/-- Whether an Except value is a success (Rust: the call returned rather
than panicked / returned Err). -/
def isSuccess {ε α : Type} : Except ε α → Bool
  | Except.ok _ => true
  | Except.error _ => false

/-- The error payload of an Except value, none on success. -/
def errorOf {α : Type} : Except String α → Option String
  | Except.ok _ => none
  | Except.error e => some e

/-- The disk returned by a successful create: zeroed, SuperBlock written,
inode-bitmap bit 0 set (in bitmap block 1), and the root DiskInode record
written at the start of the inode area (block 1 + inode_bitmap_blocks). -/
def createFinalDisk (d0 : Disk) (total_blocks inode_bitmap_blocks : Nat) : Disk :=
  writeDiskInodeAt (setBit (createDisk2 d0 total_blocks inode_bitmap_blocks) 1 0)
    (1 + inode_bitmap_blocks) 0 DiskInodeType.Directory

/-- Fixture: a filesystem whose two bitmap regions hold zero blocks, hence
zero allocatable bits — both regions are exhausted by construction. -/
def efsEmpty : EasyFileSystem := ⟨Bitmap.new 1 0, Bitmap.new 1 0, 1, 1⟩

/-- Fixture: a small filesystem layout for the dealloc_data witness: one
inode-bitmap block at 1, inode area at 2, one data-bitmap block at 3, data
area starting at block 4. -/
def efsSmall : EasyFileSystem := ⟨Bitmap.new 1 1, Bitmap.new 3 1, 2, 4⟩

/-- Fixture disk for the dealloc_data witness: data-bitmap bit 0 set (block
3, byte 0) and one nonzero payload byte in data block 4. -/
def diskSmall : Disk :=
  fun b => fun j => if b = 3 ∧ j = 0 then 1 else if b = 4 ∧ j = 0 then 7 else 0

/-- Fixture: a small filesystem layout for the alloc_data witness: one
data-bitmap block at 2, data area starting at block 3. -/
def efsSmall2 : EasyFileSystem := ⟨Bitmap.new 1 1, Bitmap.new 2 1, 2, 3⟩

end EasyFS

namespace RCoreTask

/-- enum TaskStatus (task.rs lines 155-166). -/
inductive TaskStatus where
  | UnInit : TaskStatus
  | Ready : TaskStatus
  | Running : TaskStatus
  | Exited : TaskStatus
deriving DecidableEq

/-- The fields of struct TaskControlBlock (task.rs lines 11-36) that
try_turn_to_running and try_turn_to_ready read or write; the remaining
fields (contexts, address space, counters) are untouched by both functions. -/
structure TaskControlBlock where
  task_status : TaskStatus
  start_time : Nat
deriving DecidableEq

/-- Error message of try_turn_to_running (task.rs line 109). -/
def notReadyMsg : String := "TaskControlBlock::turn_to_running: not a Ready task"

/-- Error message of try_turn_to_ready (task.rs line 122). -/
def notRunningMsg : String := "TaskControlBlock::turn_to_ready: not a Running task"

/-- TaskControlBlock::try_turn_to_running (task.rs lines 107-117).  The
&mut self receiver and Result return are embedded as a (Result, new state)
pair; get_time_ms() is the explicit argument now. -/
def try_turn_to_running (self : TaskControlBlock) (now : Nat) :
    Except String Unit × TaskControlBlock :=
  if self.task_status ≠ TaskStatus.Ready then
    (Except.error notReadyMsg, self)
  else
    let s1 : TaskControlBlock := { self with task_status := TaskStatus.Running }
    let s2 : TaskControlBlock :=
      if s1.start_time = 0 then { s1 with start_time := now } else s1
    (Except.ok (), s2)

/-- TaskControlBlock::try_turn_to_ready (task.rs lines 120-127). -/
def try_turn_to_ready (self : TaskControlBlock) :
    Except String Unit × TaskControlBlock :=
  if self.task_status ≠ TaskStatus.Running then
    (Except.error notRunningMsg, self)
  else
    (Except.ok (), { self with task_status := TaskStatus.Ready })

/-- TaskControlBlock::turn_to_exited (task.rs lines 130-132). -/
def turn_to_exited (self : TaskControlBlock) : TaskControlBlock :=
  { self with task_status := TaskStatus.Exited }

end RCoreTask

namespace EasyFS

/-- Closed form of the inode-area size computed by create: with 4096 bits
per bitmap block, 128-byte inode records and 512-byte blocks, each
inode-bitmap block induces exactly 1024 inode-area blocks. -/
theorem inodeAreaBlocks_eq (i : Nat) : inodeAreaBlocks i = 1024 * i := by
  show (i * (512 * 8) * 128 + 512 - 1) / 512 = 1024 * i
  omega

/-- Clearing bit r of a byte leaves bit r clear. -/
theorem clearBitByte_bit (x r : Nat) : clearBitByte x r / 2 ^ r % 2 = 0 := by
  have hp : 0 < 2 ^ r := Nat.pos_pow_of_pos r (by omega)
  unfold clearBitByte
  by_cases h : x / 2 ^ r % 2 = 1
  · rw [if_pos h]
    have hge : 2 ^ r ≤ x := by
      by_contra hc
      rw [Nat.div_eq_of_lt (by omega)] at h
      omega
    have h2 := Nat.sub_mul_div x (2 ^ r) 1 (by omega)
    rw [Nat.mul_one] at h2
    rw [h2]
    omega
  · rw [if_neg h]
    omega

/-- The ascending scan of Bitmap::alloc returns index 0 whenever the region
is nonempty and bit 0 is free. -/
theorem findFree_some_zero (bm : Bitmap) (d : Disk) (hm : 0 < Bitmap.maximum bm)
    (h0 : Bitmap.bitAt bm d 0 = 0) : Bitmap.findFree bm d = some 0 := by
  unfold Bitmap.findFree
  obtain ⟨m, hm2⟩ : ∃ m, Bitmap.maximum bm = m + 1 := ⟨Bitmap.maximum bm - 1, by omega⟩
  rw [hm2, List.range_succ_eq_map]
  exact List.find?_cons_of_pos _ (by simp [h0])

/-- An index returned by the Bitmap::alloc scan is below the region
capacity in bits. -/
theorem findFree_lt (bm : Bitmap) (d : Disk) (k : Nat)
    (h : Bitmap.findFree bm d = some k) : k < Bitmap.maximum bm := by
  unfold Bitmap.findFree at h
  exact List.mem_range.mp (List.mem_of_find?_eq_some h)

/-- Reading back a little-endian 4-byte encoding recovers any u32 value. -/
theorem u32_roundtrip (x : Nat) (hx : x < 2 ^ 32) :
    u32Byte x 0 + 256 * u32Byte x 1 + 65536 * u32Byte x 2 + 16777216 * u32Byte x 3 = x := by
  unfold u32Byte
  norm_num
  omega

/-- Reading block 0 after writeSuperBlock recovers the written record, for
field values that fit in a u32. -/
theorem read_writeSuperBlock (d : Disk) (sb : SuperBlock)
    (h0 : sb.magic < 2 ^ 32) (h1 : sb.total_blocks < 2 ^ 32)
    (h2 : sb.inode_bitmap_blocks < 2 ^ 32) (h3 : sb.inode_area_blocks < 2 ^ 32)
    (h4 : sb.data_bitmap_blocks < 2 ^ 32) (h5 : sb.data_area_blocks < 2 ^ 32) :
    SuperBlock.read (writeSuperBlock d sb) = sb := by
  cases sb with
  | mk m t ib ia db da =>
    simp only [SuperBlock.read, writeSuperBlock, readU32, sbField] at *
    norm_num [u32Byte, sbField]
    refine ⟨?_, ?_, ?_, ?_, ?_, ?_⟩ <;> omega

/-- The inode allocation performed by create on the freshly zeroed,
SuperBlock-initialized disk returns index 0 and sets bit 0 of bitmap
block 1. -/
theorem createDisk2_alloc_inode (d0 : Disk) (t i : Nat) (hi : 1 ≤ i)
    (hfit : 1 + i + inodeAreaBlocks i ≤ t) :
    EasyFileSystem.alloc_inode (createEfs t i) (createDisk2 d0 t i)
      = Except.ok (0, setBit (createDisk2 d0 t i) 1 0) := by
  have hiab := inodeAreaBlocks_eq i
  have h1t : (1 : Nat) < t := by omega
  have hbit : Bitmap.bitAt (Bitmap.new 1 i) (createDisk2 d0 t i) 0 = 0 := by
    show blockBit ((createDisk2 d0 t i) (1 + 0 / BLOCK_BITS)) (0 % BLOCK_BITS) = 0
    norm_num [BLOCK_BITS, BLOCK_SZ]
    simp [createDisk2, writeSuperBlock, createZeroed, h1t, blockBit, zeroBlock]
  have hmax : 0 < Bitmap.maximum (Bitmap.new 1 i) := by
    show 0 < i * BLOCK_BITS
    norm_num [BLOCK_BITS, BLOCK_SZ]
    omega
  have hff := findFree_some_zero (Bitmap.new 1 i) (createDisk2 d0 t i) hmax hbit
  have hib : (createEfs t i).inode_bitmap = Bitmap.new 1 i := rfl
  simp only [EasyFileSystem.alloc_inode, Bitmap.alloc, hib, hff]
  norm_num [Bitmap.new, BLOCK_BITS, BLOCK_SZ]

/-- Inode 0 is placed at byte offset 0 of the first inode-area block. -/
theorem createEfs_root_pos (t i : Nat) :
    EasyFileSystem.get_disk_inode_pos (createEfs t i) 0 = (1 + i, 0) := by
  show ((createEfs t i).inode_area_start_block + 0 / (BLOCK_SZ / DISK_INODE_SZ),
        0 % (BLOCK_SZ / DISK_INODE_SZ) * DISK_INODE_SZ) = (1 + i, 0)
  norm_num [BLOCK_SZ, DISK_INODE_SZ]
  rfl

/-- For valid inputs, create succeeds and returns exactly the layout record
createEfs together with the final disk createFinalDisk. -/
theorem create_eq (d0 : Disk) (t i : Nat) (hi : 1 ≤ i)
    (hfit : 1 + i + inodeAreaBlocks i ≤ t) :
    EasyFileSystem.create d0 t i = Except.ok (createEfs t i, createFinalDisk d0 t i) := by
  have hcond : ¬ (t < 1 + (layoutOf t i).inode_total_blocks) := by
    show ¬ (t < 1 + (i + inodeAreaBlocks i))
    omega
  unfold EasyFileSystem.create
  rw [if_neg hcond]
  simp only [createDisk2_alloc_inode d0 t i hi hfit]
  simp only [createEfs_root_pos t i]
  rfl

/-- C2: for every valid input pair (total_blocks, inode_bitmap_blocks),
the filesystem produced by create carries the start blocks computed by the
layout arithmetic, and that layout satisfies
inode_area_start_block + inode_area_blocks ≤ data_area_start_block and
data_area_start_block + data_area_blocks = total_blocks. -/
theorem create_region_partition (d0 : Disk) (t i : Nat) (hi : 1 ≤ i)
    (hfit : 1 + i + inodeAreaBlocks i ≤ t) :
    (EasyFileSystem.create d0 t i).map
        (fun p => (p.1.inode_area_start_block, p.1.data_area_start_block))
      = Except.ok ((layoutOf t i).inode_area_start_block, (layoutOf t i).data_area_start_block) ∧
    (layoutOf t i).inode_area_start_block + (layoutOf t i).inode_area_blocks
      ≤ (layoutOf t i).data_area_start_block ∧
    (layoutOf t i).data_area_start_block + (layoutOf t i).data_area_blocks = t := by
  refine ⟨?_, ?_, ?_⟩
  · rw [create_eq d0 t i hi hfit]
    rfl
  · show 1 + i + inodeAreaBlocks i
      ≤ 1 + (i + inodeAreaBlocks i) + ((t - 1 - (i + inodeAreaBlocks i) + 4096) / 4097)
    omega
  · show 1 + (i + inodeAreaBlocks i) + ((t - 1 - (i + inodeAreaBlocks i) + 4096) / 4097)
      + ((t - 1 - (i + inodeAreaBlocks i)) - ((t - 1 - (i + inodeAreaBlocks i) + 4096) / 4097)) = t
    omega

/-- Witness for create_region_partition at total_blocks 2048,
inode_bitmap_blocks 1. -/
theorem create_region_partition_witness :
    1 ≤ 1 ∧ 1 + 1 + inodeAreaBlocks 1 ≤ 2048 ∧
    ((layoutOf 2048 1).inode_area_start_block + (layoutOf 2048 1).inode_area_blocks
      ≤ (layoutOf 2048 1).data_area_start_block ∧
     (layoutOf 2048 1).data_area_start_block + (layoutOf 2048 1).data_area_blocks = 2048) :=
  ⟨by decide, by decide,
   (create_region_partition zeroDisk 2048 1 (by decide) (by decide)).2⟩

/-- C5: the data-bitmap block count computed by create equals
(data_total_blocks + 4096) / 4097 with
data_total_blocks = total_blocks - 1 - inode_bitmap_blocks - inode_area_blocks,
the data-area block count equals data_total_blocks - data_bitmap_blocks, and
the data bitmap of the created filesystem has exactly that many blocks. -/
theorem data_bitmap_sizing (t i : Nat) :
    (layoutOf t i).data_bitmap_blocks
        = ((t - 1 - i - (layoutOf t i).inode_area_blocks) + 4096) / 4097 ∧
    (layoutOf t i).data_area_blocks
        = (t - 1 - i - (layoutOf t i).inode_area_blocks) - (layoutOf t i).data_bitmap_blocks ∧
    (createEfs t i).data_bitmap.blocks = (layoutOf t i).data_bitmap_blocks := by
  refine ⟨?_, ?_, rfl⟩
  · show (t - 1 - (i + inodeAreaBlocks i) + 4096) / 4097
      = ((t - 1 - i - inodeAreaBlocks i) + 4096) / 4097
    omega
  · show (t - 1 - (i + inodeAreaBlocks i)) - ((t - 1 - (i + inodeAreaBlocks i) + 4096) / 4097)
      = (t - 1 - i - inodeAreaBlocks i) - ((t - 1 - (i + inodeAreaBlocks i) + 4096) / 4097)
    omega

/-- C4 counterexample: immediately after create(device, 4096, 1) the disk
is NOT all-zero outside block 0: block 1 (the inode-bitmap block, a block
other than the SuperBlock) has byte 0 equal to 1, because create allocates
the root inode and thereby sets inode-bitmap bit 0 before returning. -/
theorem create_zeroing_cex :
    (1 : Nat) < 4096 ∧ (1 : Nat) ≠ 0 ∧
    (EasyFileSystem.create zeroDisk 4096 1).map (fun p => p.2 1 0) = Except.ok 1 :=
  ⟨by decide, by decide, rfl⟩

/-- C4 (amended): immediately after create(device, total_blocks,
inode_bitmap_blocks) returns, every block of the device other than block 0
(the SuperBlock), block 1 (the first inode-bitmap block, where the root
inode bit was set) and block 1 + inode_bitmap_blocks (holding the
initialized root DiskInode) reads as all-zero bytes. -/
theorem create_zeroes_other_blocks (d0 : Disk) (t i b j : Nat) (hi : 1 ≤ i)
    (hfit : 1 + i + inodeAreaBlocks i ≤ t) (hb : b < t) (hb0 : b ≠ 0) (hb1 : b ≠ 1)
    (hbr : b ≠ 1 + i) (hj : j < BLOCK_SZ) :
    (EasyFileSystem.create d0 t i).map (fun p => p.2 b j) = Except.ok 0 := by
  rw [create_eq d0 t i hi hfit]
  show Except.ok (createFinalDisk d0 t i b j) = Except.ok 0
  refine congrArg Except.ok ?_
  show (if b = 1 + i then _ else (setBit (createDisk2 d0 t i) 1 0) b) j = 0
  rw [if_neg hbr]
  show (if b = 1 then _ else (createDisk2 d0 t i) b) j = 0
  rw [if_neg hb1]
  show (if b = 0 then _ else (createZeroed d0 t) b) j = 0
  rw [if_neg hb0]
  show (if b < t then zeroBlock else d0 b) j = 0
  rw [if_pos hb]
  rfl

/-- Witness for create_zeroes_other_blocks: block 5, byte 0 of a
freshly created 2048-block filesystem reads zero. -/
theorem create_zeroes_other_blocks_witness :
    (5 : Nat) < 2048 ∧ (5 : Nat) ≠ 0 ∧ (5 : Nat) ≠ 1 ∧ (5 : Nat) ≠ 1 + 1 ∧
    (0 : Nat) < BLOCK_SZ ∧
    (EasyFileSystem.create zeroDisk 2048 1).map (fun p => p.2 5 0) = Except.ok 0 :=
  ⟨by decide, by decide, by decide, by decide, by decide,
   create_zeroes_other_blocks zeroDisk 2048 1 5 0 (by decide) (by decide) (by decide)
     (by decide) (by decide) (by decide) (by decide)⟩

/-- C8: during create, the first inode allocation on the freshly zeroed
device returns index 0 (so the asserted root-index check cannot fail),
inode 0 is located at get_disk_inode_pos(0) = (inode area start, offset 0),
and the bytes there after create are the directory-initialized DiskInode
record. -/
theorem create_root_inode (d0 : Disk) (t i j : Nat) (hi : 1 ≤ i)
    (hfit : 1 + i + inodeAreaBlocks i ≤ t) (hj : j < DISK_INODE_SZ) :
    (EasyFileSystem.alloc_inode (createEfs t i) (createDisk2 d0 t i)).map Prod.fst
        = Except.ok 0 ∧
    EasyFileSystem.get_disk_inode_pos (createEfs t i) 0 = (1 + i, 0) ∧
    (EasyFileSystem.create d0 t i).map (fun p => p.2 (1 + i) j)
        = Except.ok (diskInodeInitBytes DiskInodeType.Directory j) := by
  refine ⟨?_, createEfs_root_pos t i, ?_⟩
  · rw [createDisk2_alloc_inode d0 t i hi hfit]
    rfl
  · rw [create_eq d0 t i hi hfit]
    show Except.ok (createFinalDisk d0 t i (1 + i) j)
      = Except.ok (diskInodeInitBytes DiskInodeType.Directory j)
    refine congrArg Except.ok ?_
    show (if 1 + i = 1 + i then
            (fun jj => if 0 ≤ jj ∧ jj < 0 + DISK_INODE_SZ then
              diskInodeInitBytes DiskInodeType.Directory (jj - 0)
            else (setBit (createDisk2 d0 t i) 1 0) (1 + i) jj)
          else (setBit (createDisk2 d0 t i) 1 0) (1 + i)) j
      = diskInodeInitBytes DiskInodeType.Directory j
    rw [if_pos rfl]
    show (if 0 ≤ j ∧ j < 0 + DISK_INODE_SZ then
            diskInodeInitBytes DiskInodeType.Directory (j - 0) else _)
      = diskInodeInitBytes DiskInodeType.Directory j
    rw [if_pos ⟨Nat.zero_le j, by omega⟩]
    norm_num

/-- Witness for create_root_inode: in a 2048-block filesystem the final
byte of the root DiskInode record (block 2, byte 127) holds the nonzero
directory tag 1. -/
theorem create_root_inode_witness :
    (127 : Nat) < DISK_INODE_SZ ∧
    (EasyFileSystem.create zeroDisk 2048 1).map (fun p => p.2 (1 + 1) 127)
      = Except.ok 1 := by
  have h := create_root_inode zeroDisk 2048 1 127 (by decide) (by decide) (by decide)
  have h3 := h.2.2
  rw [show diskInodeInitBytes DiskInodeType.Directory 127 = 1 by decide] at h3
  exact ⟨by decide, h3⟩

/-- Block 0 is untouched by the root-inode steps of create, so it still
holds the SuperBlock bytes written earlier. -/
theorem createFinalDisk_block0 (d0 : Disk) (t i : Nat) (hi : 1 ≤ i) :
    createFinalDisk d0 t i 0 = createDisk2 d0 t i 0 := by
  show (if (0 : Nat) = 1 + i then _ else (setBit (createDisk2 d0 t i) 1 0) 0)
      = createDisk2 d0 t i 0
  rw [if_neg (by omega : ¬ (0 : Nat) = 1 + i)]
  show (if (0 : Nat) = 1 then _ else createDisk2 d0 t i 0) = createDisk2 d0 t i 0
  rw [if_neg (by omega : ¬ (0 : Nat) = 1)]

/-- Decoding block 0 of the disk produced by create yields exactly the
SuperBlock record that create wrote. -/
theorem read_createFinalDisk (d0 : Disk) (t i : Nat) (hi : 1 ≤ i)
    (hfit : 1 + i + inodeAreaBlocks i ≤ t) (h32 : t < 2 ^ 32) :
    SuperBlock.read (createFinalDisk d0 t i) = createSB t i := by
  have hiab := inodeAreaBlocks_eq i
  have hstep : SuperBlock.read (createFinalDisk d0 t i)
      = SuperBlock.read (createDisk2 d0 t i) := by
    unfold SuperBlock.read readU32
    rw [createFinalDisk_block0 d0 t i hi]
  rw [hstep]
  show SuperBlock.read (writeSuperBlock (createZeroed d0 t) (createSB t i)) = createSB t i
  apply read_writeSuperBlock
  · show EFS_MAGIC < 2 ^ 32
    norm_num [EFS_MAGIC]
  · show t < 2 ^ 32
    exact h32
  · show i < 2 ^ 32
    omega
  · show inodeAreaBlocks i < 2 ^ 32
    omega
  · show (t - 1 - (i + inodeAreaBlocks i) + 4096) / 4097 < 2 ^ 32
    omega
  · show (t - 1 - (i + inodeAreaBlocks i))
        - ((t - 1 - (i + inodeAreaBlocks i) + 4096) / 4097) < 2 ^ 32
    omega

/-- C3: creating a filesystem and then opening the same device yields a
filesystem with identical region boundaries (both bitmaps and both start
blocks), reconstructed from the SuperBlock written by create; moreover
open depends only on the SuperBlock read from block 0, so it never
re-scans bitmap contents. -/
theorem create_open_roundtrip (d0 : Disk) (t i : Nat) (hi : 1 ≤ i)
    (hfit : 1 + i + inodeAreaBlocks i ≤ t) (h32 : t < 2 ^ 32) :
    ((EasyFileSystem.create d0 t i).bind (fun p => EasyFileSystem.openFs p.2))
      = (EasyFileSystem.create d0 t i).map Prod.fst ∧
    ∀ da db : Disk, SuperBlock.read da = SuperBlock.read db →
      EasyFileSystem.openFs da = EasyFileSystem.openFs db := by
  constructor
  · rw [create_eq d0 t i hi hfit]
    show EasyFileSystem.openFs (createFinalDisk d0 t i) = Except.ok (createEfs t i)
    unfold EasyFileSystem.openFs
    rw [read_createFinalDisk d0 t i hi hfit h32]
    show EasyFileSystem.openSB (createSB t i) = Except.ok (createEfs t i)
    unfold EasyFileSystem.openSB
    rw [if_pos (show SuperBlock.is_valid (createSB t i) = true by
      show ((EFS_MAGIC : Nat) == EFS_MAGIC) = true
      rfl)]
    refine congrArg Except.ok ?_
    simp only [createEfs, createSB, SuperBlock.make, layoutOf, Bitmap.new,
      EasyFileSystem.mk.injEq, Bitmap.mk.injEq, true_and, and_true]
    omega
  · intro da db h
    unfold EasyFileSystem.openFs
    rw [h]

/-- Witness for create_open_roundtrip at total_blocks 2048,
inode_bitmap_blocks 1. -/
theorem create_open_roundtrip_witness :
    1 ≤ 1 ∧ 1 + 1 + inodeAreaBlocks 1 ≤ 2048 ∧ 2048 < 2 ^ 32 ∧
    ((EasyFileSystem.create zeroDisk 2048 1).bind (fun p => EasyFileSystem.openFs p.2)
      = (EasyFileSystem.create zeroDisk 2048 1).map Prod.fst) :=
  ⟨by decide, by decide, by decide,
   (create_open_roundtrip zeroDisk 2048 1 (by decide) (by decide) (by decide)).1⟩

/-- C9: open reads the SuperBlock from block 0 and validates its magic; on
an invalid magic it aborts with the unrecoverable load error and never
constructs a filesystem, and on a valid magic it returns the filesystem
whose region boundaries are computed purely from the stored counts. -/
theorem open_validates_magic (d : Disk) :
    (SuperBlock.is_valid (SuperBlock.read d) = false →
      EasyFileSystem.openFs d = Except.error loadErrMsg) ∧
    (SuperBlock.is_valid (SuperBlock.read d) = true →
      EasyFileSystem.openFs d = Except.ok
        ⟨Bitmap.new 1 (SuperBlock.read d).inode_bitmap_blocks,
         Bitmap.new (1 + ((SuperBlock.read d).inode_bitmap_blocks
            + (SuperBlock.read d).inode_area_blocks))
           (SuperBlock.read d).data_bitmap_blocks,
         1 + (SuperBlock.read d).inode_bitmap_blocks,
         1 + ((SuperBlock.read d).inode_bitmap_blocks
            + (SuperBlock.read d).inode_area_blocks)
           + (SuperBlock.read d).data_bitmap_blocks⟩) := by
  constructor
  · intro h
    unfold EasyFileSystem.openFs EasyFileSystem.openSB
    rw [if_neg (by simp [h])]
  · intro h
    unfold EasyFileSystem.openFs EasyFileSystem.openSB
    rw [if_pos h]

/-- Witness for open_validates_magic: an all-zero disk has magic 0, so
open aborts with the load error. -/
theorem open_validates_magic_witness :
    SuperBlock.is_valid (SuperBlock.read zeroDisk) = false ∧
    EasyFileSystem.openFs zeroDisk = Except.error loadErrMsg :=
  ⟨by decide, (open_validates_magic zeroDisk).1 (by decide)⟩

/-- C1 counterexample: a concrete filesystem produced by create (1026 total
blocks, 1 inode-bitmap block) has an exhausted data bitmap (findFree is
none, so no free bit exists), yet alloc_data does not surface the
exhaustion as a recoverable failure: it panics (the embedded
Option::unwrap panic), i.e. the call is an error, not a normal return. -/
theorem alloc_exhaustion_cex :
    (EasyFileSystem.create zeroDisk 1026 1).map
        (fun p => Bitmap.findFree p.1.data_bitmap p.2) = Except.ok none ∧
    (EasyFileSystem.create zeroDisk 1026 1).map
        (fun p => errorOf (EasyFileSystem.alloc_data p.1 p.2))
      = Except.ok (some panicUnwrapMsg) ∧
    (EasyFileSystem.create zeroDisk 1026 1).map
        (fun p => isSuccess (EasyFileSystem.alloc_data p.1 p.2)) = Except.ok false :=
  ⟨rfl, rfl, rfl⟩

/-- C1 (amended): when a bitmap region is exhausted the bitmap alloc does
return none, but alloc_inode and alloc_data unwrap that option and panic
(embedded as the unwrap panic error); exhaustion is not surfaced to the
caller as a recoverable allocation failure. -/
theorem alloc_unwrap_panics (efs : EasyFileSystem) (d : Disk)
    (hi : Bitmap.findFree efs.inode_bitmap d = none)
    (hd : Bitmap.findFree efs.data_bitmap d = none) :
    Bitmap.alloc efs.inode_bitmap d = none ∧
    Bitmap.alloc efs.data_bitmap d = none ∧
    EasyFileSystem.alloc_inode efs d = Except.error panicUnwrapMsg ∧
    EasyFileSystem.alloc_data efs d = Except.error panicUnwrapMsg := by
  unfold EasyFileSystem.alloc_inode EasyFileSystem.alloc_data Bitmap.alloc
  rw [hi, hd]
  exact ⟨rfl, rfl, rfl, rfl⟩

/-- Witness for alloc_unwrap_panics on a filesystem with empty bitmap
regions. -/
theorem alloc_unwrap_panics_witness :
    Bitmap.findFree efsEmpty.inode_bitmap zeroDisk = none ∧
    Bitmap.findFree efsEmpty.data_bitmap zeroDisk = none ∧
    EasyFileSystem.alloc_inode efsEmpty zeroDisk = Except.error panicUnwrapMsg :=
  ⟨by decide, by decide,
   (alloc_unwrap_panics efsEmpty zeroDisk (by decide) (by decide)).2.2.1⟩

/-- C7: whenever alloc_data succeeds, its result is the index allocated by
the data bitmap plus data_area_start_block, and every successful result is
a physical block id at least data_area_start_block. -/
theorem alloc_data_physical (efs : EasyFileSystem) (d : Disk) (k : Nat)
    (hf : Bitmap.findFree efs.data_bitmap d = some k) :
    (EasyFileSystem.alloc_data efs d).map Prod.fst
        = Except.ok (k + efs.data_area_start_block) ∧
    (∀ r, (EasyFileSystem.alloc_data efs d).map Prod.fst = Except.ok r →
      efs.data_area_start_block ≤ r) := by
  have h1 : (EasyFileSystem.alloc_data efs d).map Prod.fst
      = Except.ok (k + efs.data_area_start_block) := by
    simp only [EasyFileSystem.alloc_data, Bitmap.alloc, hf]
    rfl
  refine ⟨h1, ?_⟩
  intro r hr
  rw [h1] at hr
  injection hr with h2
  omega

/-- Witness for alloc_data_physical: on an all-free data bitmap the
allocation returns bitmap index 0 offset to physical block 3. -/
theorem alloc_data_physical_witness :
    Bitmap.findFree efsSmall2.data_bitmap zeroDisk = some 0 ∧
    (EasyFileSystem.alloc_data efsSmall2 zeroDisk).map Prod.fst = Except.ok (0 + 3) :=
  ⟨by decide, (alloc_data_physical efsSmall2 zeroDisk 0 (by decide)).1⟩

/-- C6: for a valid physical block id in the data area whose bitmap bit is
set, dealloc_data zeroes every byte of that block and clears the
data-bitmap bit at index block_id - data_area_start_block; consequently a
later allocation (which only sets a bit inside the data-bitmap region)
leaves the block all-zero, so an allocation returning the same id observes
an all-zero block. -/
theorem dealloc_data_zeroes (efs : EasyFileSystem) (d : Disk) (b : Nat)
    (hlay : efs.data_bitmap.start_block_id + efs.data_bitmap.blocks
      ≤ efs.data_area_start_block)
    (hge : efs.data_area_start_block ≤ b)
    (hrange : b - efs.data_area_start_block < Bitmap.maximum efs.data_bitmap)
    (hbit : Bitmap.bitAt efs.data_bitmap d (b - efs.data_area_start_block) = 1) :
    (∀ j, (EasyFileSystem.dealloc_data efs d b).map (fun dd => dd b j) = Except.ok 0) ∧
    (EasyFileSystem.dealloc_data efs d b).map
        (fun dd => Bitmap.bitAt efs.data_bitmap dd (b - efs.data_area_start_block))
      = Except.ok 0 ∧
    (∀ dd k dd2, EasyFileSystem.dealloc_data efs d b = Except.ok dd →
      Bitmap.alloc efs.data_bitmap dd = some (k, dd2) → ∀ j, dd2 b j = 0) := by
  have hBB : 0 < BLOCK_BITS := by norm_num [BLOCK_BITS, BLOCK_SZ]
  set idx := b - efs.data_area_start_block with hidx
  set bb := efs.data_bitmap.start_block_id + idx / BLOCK_BITS with hbb
  have hdivlt : idx / BLOCK_BITS < efs.data_bitmap.blocks := by
    rw [Nat.div_lt_iff_lt_mul hBB]
    exact hrange
  have hbblt : bb < efs.data_area_start_block := by omega
  have hbbne : bb ≠ b := by omega
  have hz_bb : zeroBlockAt d b bb = d bb := by
    unfold zeroBlockAt
    rw [if_neg hbbne]
  have hbit1 : Bitmap.bitAt efs.data_bitmap (zeroBlockAt d b) idx = 1 := by
    unfold Bitmap.bitAt
    rw [← hbb, hz_bb]
    exact hbit
  have hdeal : EasyFileSystem.dealloc_data efs d b
      = Except.ok (clearBit (zeroBlockAt d b) bb (idx % BLOCK_BITS)) := by
    unfold EasyFileSystem.dealloc_data Bitmap.dealloc
    rw [if_neg (by omega : ¬ b < efs.data_area_start_block)]
    rw [if_pos hbit1]
  have hclear_b : ∀ j, clearBit (zeroBlockAt d b) bb (idx % BLOCK_BITS) b j = 0 := by
    intro j
    show (if b = bb then _ else zeroBlockAt d b b) j = 0
    rw [if_neg (by omega : ¬ b = bb)]
    show (if b = b then zeroBlock else d b) j = 0
    rw [if_pos rfl]
    rfl
  refine ⟨?_, ?_, ?_⟩
  · intro j
    rw [hdeal]
    exact congrArg Except.ok (hclear_b j)
  · rw [hdeal]
    refine congrArg Except.ok ?_
    unfold Bitmap.bitAt
    rw [← hbb]
    show blockBit (clearBit (zeroBlockAt d b) bb (idx % BLOCK_BITS) bb) (idx % BLOCK_BITS) = 0
    unfold clearBit blockBit
    rw [if_pos rfl]
    rw [if_pos rfl]
    exact clearBitByte_bit _ _
  · intro dd k dd2 hdd halloc j
    rw [hdeal] at hdd
    injection hdd with hval
    unfold Bitmap.alloc at halloc
    cases hf : Bitmap.findFree efs.data_bitmap dd with
    | none => rw [hf] at halloc; exact absurd halloc (by simp)
    | some k2 =>
      rw [hf] at halloc
      injection halloc with halloc2
      have hd2 : dd2 = setBit dd (efs.data_bitmap.start_block_id + k2 / BLOCK_BITS)
          (k2 % BLOCK_BITS) := (congrArg Prod.snd halloc2).symm
      have hklt := findFree_lt efs.data_bitmap dd k2 hf
      have hk_div : k2 / BLOCK_BITS < efs.data_bitmap.blocks := by
        rw [Nat.div_lt_iff_lt_mul hBB]
        exact hklt
      rw [hd2]
      show (if b = efs.data_bitmap.start_block_id + k2 / BLOCK_BITS then _ else dd b) j = 0
      rw [if_neg (by omega : ¬ b = efs.data_bitmap.start_block_id + k2 / BLOCK_BITS)]
      rw [← hval]
      exact hclear_b j

/-- Witness for dealloc_data_zeroes: deallocating physical block 4 of the
small fixture zeroes its nonzero byte. -/
theorem dealloc_data_zeroes_witness :
    efsSmall.data_bitmap.start_block_id + efsSmall.data_bitmap.blocks
      ≤ efsSmall.data_area_start_block ∧
    efsSmall.data_area_start_block ≤ 4 ∧
    4 - efsSmall.data_area_start_block < Bitmap.maximum efsSmall.data_bitmap ∧
    Bitmap.bitAt efsSmall.data_bitmap diskSmall (4 - efsSmall.data_area_start_block) = 1 ∧
    diskSmall 4 0 = 7 ∧
    (EasyFileSystem.dealloc_data efsSmall diskSmall 4).map (fun dd => dd 4 0)
      = Except.ok 0 :=
  ⟨by decide, by decide, by decide, by decide, by decide,
   (dealloc_data_zeroes efsSmall diskSmall 4 (by decide) (by decide) (by decide)
     (by decide)).1 0⟩

end EasyFS

namespace RCoreTask

/-- C10: try_turn_to_running succeeds exactly when task_status is Ready,
and on success sets task_status to Running and sets start_time to the
current time only when start_time was 0 (otherwise start_time is kept);
try_turn_to_ready succeeds exactly when task_status is Running, and on
success sets task_status to Ready (start_time kept); on failure both
functions return the Err message and leave the TaskControlBlock unchanged. -/
theorem try_turn_state_machine (t : TaskControlBlock) (now : Nat) :
    (EasyFS.isSuccess (try_turn_to_running t now).1 = true
        ↔ t.task_status = TaskStatus.Ready) ∧
    (t.task_status = TaskStatus.Ready →
        (try_turn_to_running t now).2.task_status = TaskStatus.Running ∧
        (try_turn_to_running t now).2.start_time
          = (if t.start_time = 0 then now else t.start_time)) ∧
    (¬ t.task_status = TaskStatus.Ready →
        (try_turn_to_running t now).2 = t ∧
        (try_turn_to_running t now).1 = Except.error notReadyMsg) ∧
    (EasyFS.isSuccess (try_turn_to_ready t).1 = true
        ↔ t.task_status = TaskStatus.Running) ∧
    (t.task_status = TaskStatus.Running →
        (try_turn_to_ready t).2 = { t with task_status := TaskStatus.Ready } ∧
        (try_turn_to_ready t).2.start_time = t.start_time) ∧
    (¬ t.task_status = TaskStatus.Running →
        (try_turn_to_ready t).2 = t ∧
        (try_turn_to_ready t).1 = Except.error notRunningMsg) := by
  obtain ⟨st, s0⟩ := t
  cases st <;>
    simp [try_turn_to_running, try_turn_to_ready, EasyFS.isSuccess] <;>
    split <;> simp

/-- Witness for try_turn_state_machine: a Ready task with start_time 0
turns Running with start_time set to the current time 5. -/
theorem try_turn_state_machine_witness :
    (⟨TaskStatus.Ready, 0⟩ : TaskControlBlock).task_status = TaskStatus.Ready ∧
    (try_turn_to_running ⟨TaskStatus.Ready, 0⟩ 5).2.task_status = TaskStatus.Running ∧
    (try_turn_to_running ⟨TaskStatus.Ready, 0⟩ 5).2.start_time = 5 := by
  have h := (try_turn_state_machine ⟨TaskStatus.Ready, 0⟩ 5).2.1 rfl
  refine ⟨rfl, h.1, ?_⟩
  rw [h.2]
  rfl

end RCoreTask
